import Mathlib

/-!
Shallow embedding of `rlapi/player.py`: the `Playlist`, `SeasonRewards` and
`Player` value objects built from loosely-typed API records.

Raw API data is modelled by the dynamic type `Value` (numbers are conflated
into a single rational constructor, matching the Python numeric `==` across
`int`/`float`); operations that can raise in Python return `Except PyErr`.
The external collaborators `Platform` and `PlaylistKey` (module
`rlapi/enums.py`, not part of the sources verified here) are modelled
opaquely, and the opaque `TierEstimates` collaborator is omitted.
-/

/-- A Python runtime value as it appears in the parsed API payloads:
`None`, a number, a string, a list or a string-keyed dict. -/
inductive Value where
  | vnull : Value
  | vnum (q : ℚ) : Value
  | vstr (s : String) : Value
  | vlist (xs : List Value) : Value
  | vdict (xs : List (String × Value)) : Value
deriving Repr

/-- The Python exceptions this layer can raise. -/
inductive PyErr where
  | indexError
  | typeError
  | keyError
deriving Repr, DecidableEq

mutual

/-- Python `==` on `Value` (numbers compare numerically, matching the
cross-type `int`/`float` equality of Python; mismatched kinds compare
unequal). -/
def Value.beq : Value → Value → Bool
  | .vnull, .vnull => true
  | .vnum a, .vnum b => a == b
  | .vstr a, .vstr b => a == b
  | .vlist a, .vlist b => Value.beqList a b
  | .vdict a, .vdict b => Value.beqDict a b
  | _, _ => false

/-- Elementwise equality of Python lists. -/
def Value.beqList : List Value → List Value → Bool
  | [], [] => true
  | a :: as, b :: bs => Value.beq a b && Value.beqList as bs
  | _, _ => false

/-- Entrywise equality of Python dicts (order-sensitive approximation;
only scalar-valued dicts are ever compared in this layer). -/
def Value.beqDict : List (String × Value) → List (String × Value) → Bool
  | [], [] => true
  | (ka, va) :: as, (kb, vb) :: bs =>
      ka == kb && Value.beq va vb && Value.beqDict as bs
  | _, _ => false

end

/-- A raw JSON-like record: a Python dict with string keys. -/
abbrev RawData := List (String × Value)

/-- Python `data.get(key, default)`. -/
def dictGet (data : RawData) (key : String) (dflt : Value) : Value :=
  match data.lookup key with
  | some v => v
  | none => dflt

/-- Remove every binding of `key` (a Python dict holds it at most once). -/
def removeKey (data : RawData) (key : String) : RawData :=
  data.filter (fun e => e.1 != key)

/-- Python `data.pop(key)`: the value plus the shrunk dict, or `KeyError`. -/
def popKey (data : RawData) (key : String) : Except PyErr (Value × RawData) :=
  match data.lookup key with
  | some v => .ok (v, removeKey data key)
  | none => .error .keyError

/-- Python `v * k` for a nonnegative integer literal `k`
(numeric product, or string/list repetition; otherwise `TypeError`). -/
def pyMulNat (v : Value) (k : Nat) : Except PyErr Value :=
  match v with
  | .vnum q => .ok (.vnum (q * k))
  | .vstr s => .ok (.vstr (String.join (List.replicate k s)))
  | .vlist xs => .ok (.vlist (List.flatten (List.replicate k xs)))
  | _ => .error .typeError

/-- Python `a + b` (numbers add, strings and lists concatenate,
anything else raises `TypeError`). -/
def pyAdd (a b : Value) : Except PyErr Value :=
  match a, b with
  | .vnum x, .vnum y => .ok (.vnum (x + y))
  | .vstr x, .vstr y => .ok (.vstr (x ++ y))
  | .vlist x, .vlist y => .ok (.vlist (x ++ y))
  | _, _ => .error .typeError

/-- Python `a < b` on the value kinds this layer compares
(numbers and strings; mixed kinds raise `TypeError`). -/
def pyLt (a b : Value) : Except PyErr Bool :=
  match a, b with
  | .vnum x, .vnum y => .ok (decide (x < y))
  | .vstr x, .vstr y => .ok (decide (x < y))
  | _, _ => .error .typeError

/-- Python `max` of two values (`a if a >= b else b` on the first maximal
element, as `max` of a pair behaves). -/
def pyMax2 (a b : Value) : Except PyErr Value :=
  match a, b with
  | .vnum x, .vnum y => .ok (if x < y then .vnum y else .vnum x)
  | .vstr x, .vstr y => .ok (if x < y then .vstr y else .vstr x)
  | _, _ => .error .typeError

/-- Python `max(values, default=0)`. -/
def pyMax (values : List Value) : Except PyErr Value :=
  match values with
  | [] => .ok (.vnum 0)
  | v :: vs => vs.foldlM pyMax2 v

/-- Python sequence indexing `xs[v]`: an integral index within
`[-len xs, len xs)` selects an element (negative indices count from the
end), an integral index outside that range raises `IndexError`, and a
non-integral value raises `TypeError`. -/
def pyIndex (xs : List String) (v : Value) : Except PyErr String :=
  match v with
  | .vnum q =>
      if q.den = 1 then
        let i := q.num
        if 0 ≤ i ∧ i < (xs.length : Int) then .ok (xs.getD i.toNat "")
        else if -(xs.length : Int) ≤ i ∧ i < 0 then
          .ok (xs.getD (i + (xs.length : Int)).toNat "")
        else .error .indexError
      else .error .typeError
  | _ => .error .typeError

/-- The fixed table of 20 rank names, indexed by tier. -/
def RANKS : List String :=
  [ "Unranked", "Bronze I", "Bronze II", "Bronze III",
    "Silver I", "Silver II", "Silver III",
    "Gold I", "Gold II", "Gold III",
    "Platinum I", "Platinum II", "Platinum III",
    "Diamond I", "Diamond II", "Diamond III",
    "Champion I", "Champion II", "Champion III",
    "Grand Champion" ]

/-- The fixed table of 4 division labels, indexed by division. -/
def DIVISIONS : List String := ["I", "II", "III", "IV"]

/-- Modelled from the spec: `Platform` is an external enumeration consumed
opaquely by this layer (the caller supplies it; it is never inspected). -/
structure Platform where
  id : Nat
deriving Repr, DecidableEq

/-- A playlist identifier: either a recognised variant of the external
`PlaylistKey` enumeration or the raw value retained as a fallback.
Modelled from the spec: the enumeration itself is an external collaborator,
so membership is abstracted by a caller-supplied test `isKnown` below. -/
inductive PKey where
  | known (v : Value) : PKey
  | raw (v : Value) : PKey
deriving Repr

/-- Python `==` on playlist keys: enum members and plain values never
compare equal to each other. -/
def PKey.beq : PKey → PKey → Bool
  | .known a, .known b => Value.beq a b
  | .raw a, .raw b => Value.beq a b
  | _, _ => false

/-- Coercion `PlaylistKey(v)` under `contextlib.suppress(ValueError)`: coerce into the
enumeration when recognised, keep the raw value otherwise. -/
def resolveKey (isKnown : Value → Bool) (v : Value) : PKey :=
  if isKnown v then .known v else .raw v

/-- The rank snapshot of one playlist (`Playlist.__init__` fields; the opaque
external `tier_estimates` collaborator is omitted). -/
structure Playlist where
  key : PKey
  tier : Value
  division : Value
  mu : Value
  skill : Value
  sigma : Value
  win_streak : Value
  matches_played : Value
  tier_max : Value
  breakdown : Value
deriving Repr

/-- Constructor `Playlist.__init__`: get-with-default field resolution; the default for
`skill` is the eagerly evaluated expression `self.mu * 20 + 100`, which can
raise when `mu` resolved to a non-numeric value. -/
def Playlist.make (breakdown : Option Value) (playlist_key : PKey)
    (data : RawData) : Except PyErr Playlist := do
  let mu := dictGet data "mu" (.vnum 25)
  let skillDflt ← pyAdd (← pyMulNat mu 20) (.vnum 100)
  .ok { key := playlist_key
        tier := dictGet data "tier" (.vnum 0)
        division := dictGet data "division" (.vnum 0)
        mu := mu
        skill := dictGet data "skill" skillDflt
        sigma := dictGet data "sigma" (.vnum (8.333 : ℚ))
        win_streak := dictGet data "win_streak" (.vnum 0)
        matches_played := dictGet data "matches_played" (.vnum 0)
        tier_max := dictGet data "tier_max" (.vnum 19)
        breakdown := breakdown.getD (.vdict []) }

/-- Rendering `Playlist.__str__`: the bare rank name when `tier` is 0 or equals
`tier_max`, otherwise rank name plus a division label; an `IndexError`
from either table lookup is caught and replaced by `"Unknown"`. -/
def Playlist.render (p : Playlist) : Except PyErr String :=
  let body : Except PyErr String :=
    if Value.beq p.tier (.vnum 0) || Value.beq p.tier p.tier_max then
      pyIndex RANKS p.tier
    else do
      let r ← pyIndex RANKS p.tier
      let d ← pyIndex DIVISIONS p.division
      .ok (r ++ " Div " ++ d)
  match body with
  | .error .indexError => .ok "Unknown"
  | other => other

/-- Season reward progress (`SeasonRewards.__init__` fields). -/
structure SeasonRewards where
  level : Value
  wins : Value
  reward_ready : Bool
deriving Repr

/-- Python `x = data.get(key, 0); if x is None: x = 0`. -/
def getCoalesced (data : RawData) (key : String) : Value :=
  let v := dictGet data key (.vnum 0)
  if Value.beq v .vnull then .vnum 0 else v

/-- Constructor `SeasonRewards.__init__`: null-coalesced `level` and `wins`, then
`reward_ready` is true when `level == 0` or `level * 3 < highest_tier`. -/
def SeasonRewards.make (highest_tier : Value) (data : RawData) :
    Except PyErr SeasonRewards := do
  let level := getCoalesced data "level"
  let wins := getCoalesced data "wins"
  if Value.beq level (.vnum 0) then
    .ok ⟨level, wins, true⟩
  else
    let tripled ← pyMulNat level 3
    let ready ← pyLt tripled highest_tier
    .ok ⟨level, wins, ready⟩

/-- The top-level player aggregate (`Player.__init__` fields). -/
structure Player where
  platform : Platform
  user_name : Value
  player_id : Value
  playlists : List (PKey × Playlist)
  tier_breakdown : List (Value × Value)
  highest_tier : Value
  season_rewards : SeasonRewards
deriving Repr

/-- Python dict lookup keyed by playlist key (`dict.get`). -/
def lookupPl (m : List (PKey × Playlist)) (k : PKey) : Option Playlist :=
  match m with
  | [] => none
  | (k', v) :: rest => if PKey.beq k' k then some v else lookupPl rest k

/-- Python dict assignment `m[k] = v`: overwrite in place when the key is
present, append otherwise. -/
def insertPl (m : List (PKey × Playlist)) (k : PKey) (v : Playlist) :
    List (PKey × Playlist) :=
  if m.any (fun e => PKey.beq e.1 k) then
    m.map (fun e => if PKey.beq e.1 k then (k, v) else e)
  else m ++ [(k, v)]

/-- Python `tier_breakdown.get(raw_key, {})`, keyed by the raw value. -/
def lookupBreakdown (tb : List (Value × Value)) (k : Value) : Value :=
  match tb with
  | [] => .vdict []
  | (k', v) :: rest => if Value.beq k' k then v else lookupBreakdown rest k

/-- The body of `Player.add_playlist` acting on the mutable pieces it
touches: pop the `playlist` field from the record, look up the breakdown by
the raw key, coerce the key, construct the `Playlist` and store it.
Returns the updated playlists map and the record after the pop. -/
def addPlaylistCore (isKnown : Value → Bool) (tb : List (Value × Value))
    (playlists : List (PKey × Playlist)) (record : RawData) :
    Except PyErr (List (PKey × Playlist) × RawData) := do
  let (rawKey, record') ← popKey record "playlist"
  let breakdown := lookupBreakdown tb rawKey
  let key := resolveKey isKnown rawKey
  let pl ← Playlist.make (some breakdown) key record'
  .ok (insertPl playlists key pl, record')

/-- Method `Player.add_playlist`: mutates `self.playlists` and the record of the caller
(the `playlist` field is popped from it); every other field is untouched. -/
def Player.add_playlist (isKnown : Value → Bool) (p : Player)
    (record : RawData) : Except PyErr (Player × RawData) := do
  let (pls, record') ← addPlaylistCore isKnown p.tier_breakdown p.playlists record
  .ok ({ p with playlists := pls }, record')

/-- Method `Player.get_playlist`: plain `dict.get`, an absent key gives `none`. -/
def Player.get_playlist (p : Player) (playlist_key : PKey) : Option Playlist :=
  lookupPl p.playlists playlist_key

/-- A `player_skills` entry must be a record for `.pop` to exist on it. -/
def toRecord (v : Value) : Except PyErr RawData :=
  match v with
  | .vdict d => .ok d
  | _ => .error .typeError

/-- The `player_skills` payload must be a list of records; other payloads
raise once iterated over / popped (exception kind approximated). -/
def toRecords (v : Value) : Except PyErr (List RawData) :=
  match v with
  | .vlist xs => xs.mapM toRecord
  | _ => .error .typeError

/-- Method `Player._prepare_playlists`: add each raw playlist record in turn. -/
def preparePlaylists (isKnown : Value → Bool) (tb : List (Value × Value)) :
    List RawData → List (PKey × Playlist) →
    Except PyErr (List (PKey × Playlist))
  | [], acc => .ok acc
  | r :: rs, acc => do
      let (acc', _) ← addPlaylistCore isKnown tb acc r
      preparePlaylists isKnown tb rs acc'

/-- Constructor `Player.__init__`: resolve the identity fields, build all playlists,
compute `highest_tier` as `max(tier, default=0)` over them, then build
`season_rewards` from that value. -/
def Player.make (isKnown : Value → Bool)
    (tier_breakdown : Option (List (Value × Value))) (platform : Platform)
    (data : RawData) : Except PyErr Player := do
  let user_name := dictGet data "user_name" (.vstr "")
  let player_id := dictGet data "user_id" user_name
  let tb := tier_breakdown.getD []
  let skills ← toRecords (dictGet data "player_skills" (.vlist []))
  let pls ← preparePlaylists isKnown tb skills []
  let ht ← pyMax (pls.map (fun e => e.2.tier))
  let srData ← toRecord (dictGet data "season_rewards" (.vdict []))
  let sr ← SeasonRewards.make ht srData
  .ok { platform := platform
        user_name := user_name
        player_id := player_id
        playlists := pls
        tier_breakdown := tb
        highest_tier := ht
        season_rewards := sr }

theorem py_bind_ok {α β : Type} (a : α) (f : α → Except PyErr β) :
    (Except.ok a : Except PyErr α) >>= f = f a := rfl

theorem py_bind_err {α β : Type} (e : PyErr) (f : α → Except PyErr β) :
    (Except.error e : Except PyErr α) >>= f = .error e := rfl

theorem py_bind_ok_iff {α β : Type} (m : Except PyErr α) (f : α → Except PyErr β)
    (b : β) : (m >>= f = .ok b) ↔ ∃ a, m = .ok a ∧ f a = .ok b := by
  cases m <;> simp [py_bind_ok, py_bind_err]

theorem beq_vnum_vnum (a b : ℚ) : Value.beq (.vnum a) (.vnum b) = (a == b) := by
  simp [Value.beq]

/-- C1: for every `SeasonRewards` built from a raw mapping and an integer
`highest_tier`, `reward_ready` is true iff the resolved level is 0 or
`level * 3 < highest_tier`; in particular level 0 is ready for every
`highest_tier`, level 2 against tier 7 is ready, level 3 against tier 7
is not. -/
theorem C1_reward_ready_iff :
    (∀ (h : ℤ) (data : RawData) (l : ℚ),
      getCoalesced data "level" = .vnum l →
      ∃ sr, SeasonRewards.make (.vnum (h : ℚ)) data = .ok sr ∧
        sr.level = .vnum l ∧
        (sr.reward_ready = true ↔ (l = 0 ∨ l * 3 < (h : ℚ)))) ∧
    (∀ h : ℤ, SeasonRewards.make (.vnum (h : ℚ)) [("level", .vnum 0)] =
      .ok ⟨.vnum 0, .vnum 0, true⟩) ∧
    SeasonRewards.make (.vnum 7) [("level", .vnum 2)] = .ok ⟨.vnum 2, .vnum 0, true⟩ ∧
    SeasonRewards.make (.vnum 7) [("level", .vnum 3)] = .ok ⟨.vnum 3, .vnum 0, false⟩ := by
  refine ⟨?_, ?_, ?_, ?_⟩
  · intro h data l hl
    by_cases hl0 : l = 0
    · subst hl0
      exact ⟨⟨.vnum 0, getCoalesced data "wins", true⟩,
        by simp [SeasonRewards.make, hl, beq_vnum_vnum], rfl, by simp⟩
    · refine ⟨⟨.vnum l, getCoalesced data "wins", decide (l * 3 < (h : ℚ))⟩, ?_, rfl, ?_⟩
      · simp [SeasonRewards.make, hl, beq_vnum_vnum, hl0, pyMulNat, pyLt, py_bind_ok]
      · simp [hl0]
  · intro h
    simp [SeasonRewards.make, getCoalesced, dictGet, List.lookup, beq_vnum_vnum, Value.beq]
  · simp [SeasonRewards.make, getCoalesced, dictGet, List.lookup, beq_vnum_vnum, Value.beq,
      pyMulNat, pyLt, py_bind_ok]
    norm_num
  · simp [SeasonRewards.make, getCoalesced, dictGet, List.lookup, beq_vnum_vnum, Value.beq,
      pyMulNat, pyLt, py_bind_ok]
    norm_num

theorem C1_reward_ready_iff_witness :
    ∃ sr, SeasonRewards.make (.vnum ((7:ℤ) : ℚ)) [("level", .vnum 2)] = .ok sr ∧
      sr.level = .vnum 2 ∧
      (sr.reward_ready = true ↔ ((2:ℚ) = 0 ∨ (2:ℚ) * 3 < ((7:ℤ) : ℚ))) :=
  C1_reward_ready_iff.1 7 [("level", .vnum 2)] 2 rfl

theorem beq_vnull_iff (v : Value) : Value.beq v .vnull = true ↔ v = .vnull := by
  cases v <;> simp [Value.beq]

theorem getCoalesced_num (data : RawData) (key : String)
    (hshape : ∀ v, data.lookup key = some v → v = .vnull ∨ ∃ q : ℚ, v = .vnum q) :
    ∃ q : ℚ, getCoalesced data key = .vnum q := by
  unfold getCoalesced dictGet
  cases hcase : data.lookup key with
  | none => exact ⟨0, by simp [Value.beq]⟩
  | some v =>
    rcases hshape v hcase with rfl | ⟨q, rfl⟩
    · exact ⟨0, by simp [Value.beq]⟩
    · exact ⟨q, by simp [Value.beq]⟩

/-- C6: `level` and `wins` use get-with-default 0; an explicit null stored
under either key is coerced to 0 rather than propagated; construction never
raises for any mapping of the documented shape (values int-or-null). -/
theorem C6_null_coalescing :
    (∀ (d : RawData) (k : String),
      (d.lookup k = none → getCoalesced d k = .vnum 0) ∧
      (d.lookup k = some .vnull → getCoalesced d k = .vnum 0) ∧
      (∀ v, d.lookup k = some v → v ≠ .vnull → getCoalesced d k = v)) ∧
    (∀ (h : ℤ) (data : RawData),
      (∀ v, data.lookup "level" = some v → v = .vnull ∨ ∃ q : ℚ, v = .vnum q) →
      ∃ sr, SeasonRewards.make (.vnum (h : ℚ)) data = .ok sr ∧
        sr.level = getCoalesced data "level" ∧
        sr.wins = getCoalesced data "wins") := by
  constructor
  · intro d k
    refine ⟨fun hn => ?_, fun hn => ?_, fun v hv hvn => ?_⟩
    · simp [getCoalesced, dictGet, hn, Value.beq]
    · simp [getCoalesced, dictGet, hn, Value.beq]
    · have : Value.beq v .vnull = false := by
        cases hb : Value.beq v .vnull
        · rfl
        · exact absurd ((beq_vnull_iff v).mp hb) hvn
      simp [getCoalesced, dictGet, hv, this]
  · intro h data hl
    obtain ⟨ql, hql⟩ := getCoalesced_num data "level" hl
    by_cases h0 : ql = 0
    · subst h0
      exact ⟨⟨.vnum 0, getCoalesced data "wins", true⟩,
        by simp [SeasonRewards.make, hql, beq_vnum_vnum], hql.symm, rfl⟩
    · refine ⟨⟨.vnum ql, getCoalesced data "wins", decide (ql * 3 < (h : ℚ))⟩, ?_, hql.symm, rfl⟩
      simp [SeasonRewards.make, hql, beq_vnum_vnum, h0, pyMulNat, pyLt, py_bind_ok]

theorem C6_null_coalescing_witness :
    (getCoalesced [("level", Value.vnull)] "level" = .vnum 0) ∧
    ∃ sr, SeasonRewards.make (.vnum ((5:ℤ) : ℚ)) [("level", Value.vnull)] = .ok sr ∧
      sr.level = getCoalesced [("level", Value.vnull)] "level" ∧
      sr.wins = getCoalesced [("level", Value.vnull)] "wins" :=
  ⟨(C6_null_coalescing.1 [("level", Value.vnull)] "level").2.1 rfl,
   C6_null_coalescing.2 5 [("level", Value.vnull)]
     (fun _ hv => Or.inl (Option.some.inj hv).symm)⟩

/-- C5: every field absent from a playlist record takes its documented
default (empty record: tier 0, division 0, mu 25, sigma 8.333, win_streak 0,
matches_played 0, tier_max 19), and an absent `skill` defaults to
`mu * 20 + 100` computed from the already-resolved `mu` (600 on an empty
record, 700 when `mu` is 30 and `skill` absent). -/
theorem C5_playlist_defaults :
    (∀ (k : PKey) (bd : Option Value),
      Playlist.make bd k [] = .ok
        { key := k, tier := .vnum 0, division := .vnum 0, mu := .vnum 25,
          skill := .vnum 600, sigma := .vnum (8.333 : ℚ), win_streak := .vnum 0,
          matches_played := .vnum 0, tier_max := .vnum 19,
          breakdown := bd.getD (.vdict []) }) ∧
    (∀ (k : PKey) (bd : Option Value) (data : RawData) (m : ℚ),
      dictGet data "mu" (.vnum 25) = .vnum m →
      data.lookup "skill" = none →
      ∃ p, Playlist.make bd k data = .ok p ∧ p.mu = .vnum m ∧
        p.skill = .vnum (m * 20 + 100)) ∧
    (∀ (k : PKey) (bd : Option Value),
      ∃ p, Playlist.make bd k [("mu", .vnum 30)] = .ok p ∧ p.skill = .vnum 700) := by
  refine ⟨?_, ?_, ?_⟩
  · intro k bd
    simp [Playlist.make, dictGet, List.lookup, pyAdd, pyMulNat, py_bind_ok]
    norm_num
  · intro k bd data m hmu hsk
    refine ⟨{ key := k, tier := dictGet data "tier" (.vnum 0),
              division := dictGet data "division" (.vnum 0), mu := .vnum m,
              skill := .vnum (m * 20 + 100),
              sigma := dictGet data "sigma" (.vnum (8.333 : ℚ)),
              win_streak := dictGet data "win_streak" (.vnum 0),
              matches_played := dictGet data "matches_played" (.vnum 0),
              tier_max := dictGet data "tier_max" (.vnum 19),
              breakdown := bd.getD (.vdict []) }, ?_, rfl, rfl⟩
    simp only [Playlist.make, hmu, pyMulNat, pyAdd, py_bind_ok, Nat.cast_ofNat]
    have hskill : dictGet data "skill" (.vnum (m * 20 + 100)) = .vnum (m * 20 + 100) := by
      simp [dictGet, hsk]
    rw [hskill]
  · intro k bd
    refine ⟨{ key := k, tier := .vnum 0, division := .vnum 0, mu := .vnum 30,
              skill := .vnum 700, sigma := .vnum (8.333 : ℚ), win_streak := .vnum 0,
              matches_played := .vnum 0, tier_max := .vnum 19,
              breakdown := bd.getD (.vdict []) }, ?_, rfl⟩
    simp [Playlist.make, dictGet, List.lookup, pyAdd, pyMulNat, py_bind_ok]
    norm_num

theorem C5_playlist_defaults_witness :
    ∃ p, Playlist.make none (.raw (.vnum 1)) [("mu", .vnum 30)] = .ok p ∧
      p.mu = .vnum 30 ∧ p.skill = .vnum (30 * 20 + 100) :=
  C5_playlist_defaults.2.1 (.raw (.vnum 1)) none [("mu", .vnum 30)] 30 rfl rfl

theorem pyIndex_nat (xs : List String) (t : ℕ) (h : t < xs.length) :
    pyIndex xs (.vnum (t : ℚ)) = .ok (xs.getD t "") := by
  simp [pyIndex, h]

theorem pyIndex_int (xs : List String) (i : ℤ) :
    pyIndex xs (.vnum (i : ℚ)) =
      if 0 ≤ i ∧ i < (xs.length : ℤ) then .ok (xs.getD i.toNat "")
      else if -(xs.length : ℤ) ≤ i ∧ i < 0 then .ok (xs.getD (i + xs.length).toNat "")
      else .error .indexError := by
  simp [pyIndex]

/-- A concrete playlist value used in the display-string examples. -/
def mkPl (t d m : ℚ) : Playlist :=
  { key := .raw .vnull, tier := .vnum t, division := .vnum d, mu := .vnum 25,
    skill := .vnum 600, sigma := .vnum (8.333 : ℚ), win_streak := .vnum 0,
    matches_played := .vnum 0, tier_max := .vnum m, breakdown := .vdict [] }


/-- The Python resolved nonnegative index into a length-`n` sequence. -/
def pyIdxVal (n : ℕ) (i : ℤ) : ℕ := if 0 ≤ i then i.toNat else (i + n).toNat

theorem render_cond (t m : ℤ) :
    (Value.beq (.vnum (t : ℚ)) (.vnum 0) || Value.beq (.vnum (t : ℚ)) (.vnum (m : ℚ))) =
      decide (t = 0 ∨ t = m) := by
  rw [beq_vnum_vnum, beq_vnum_vnum]
  by_cases h0 : t = 0 <;> by_cases hm' : t = m <;> simp [h0, hm']

theorem render_bare (p : Playlist) (t m : ℤ)
    (ht : p.tier = .vnum (t : ℚ)) (hm : p.tier_max = .vnum (m : ℚ))
    (hc : t = 0 ∨ t = m) (hlo : -20 ≤ t) (hhi : t ≤ 19) :
    p.render = .ok (RANKS.getD (pyIdxVal 20 t) "") := by
  have hdec : decide (t = 0 ∨ t = m) = true := by
    simp only [decide_eq_true_eq]; exact hc
  unfold Playlist.render
  rw [ht, hm, render_cond, if_pos hdec, pyIndex_int,
    show ((RANKS.length : ℤ) = 20) from rfl]
  by_cases hp : 0 ≤ t
  · rw [if_pos (by omega : (0:ℤ) ≤ t ∧ t < 20)]
    simp [pyIdxVal, hp]
  · rw [if_neg (by omega), if_pos (by omega : -(20:ℤ) ≤ t ∧ t < 0)]
    simp [pyIdxVal, hp]

theorem render_div (p : Playlist) (t d m : ℤ)
    (ht : p.tier = .vnum (t : ℚ)) (hd : p.division = .vnum (d : ℚ))
    (hm : p.tier_max = .vnum (m : ℚ))
    (hc : ¬(t = 0 ∨ t = m)) (hlo : -20 ≤ t) (hhi : t ≤ 19)
    (hdlo : -4 ≤ d) (hdhi : d ≤ 3) :
    p.render = .ok (RANKS.getD (pyIdxVal 20 t) "" ++ " Div " ++
      DIVISIONS.getD (pyIdxVal 4 d) "") := by
  have hdec : ¬(decide (t = 0 ∨ t = m) = true) := by
    simp only [decide_eq_true_eq]; exact hc
  unfold Playlist.render
  rw [ht, hd, hm, render_cond, if_neg hdec, pyIndex_int, pyIndex_int,
    show ((RANKS.length : ℤ) = 20) from rfl,
    show ((DIVISIONS.length : ℤ) = 4) from rfl]
  by_cases hp : 0 ≤ t <;> by_cases hdp : 0 ≤ d
  · rw [if_pos (by omega : (0:ℤ) ≤ t ∧ t < 20), py_bind_ok,
      if_pos (by omega : (0:ℤ) ≤ d ∧ d < 4), py_bind_ok]
    simp [pyIdxVal, hp, hdp]
  · rw [if_pos (by omega : (0:ℤ) ≤ t ∧ t < 20), py_bind_ok,
      if_neg (by omega), if_pos (by omega : -(4:ℤ) ≤ d ∧ d < 0), py_bind_ok]
    simp [pyIdxVal, hp, hdp]
  · rw [if_neg (by omega), if_pos (by omega : -(20:ℤ) ≤ t ∧ t < 0), py_bind_ok,
      if_pos (by omega : (0:ℤ) ≤ d ∧ d < 4), py_bind_ok]
    simp [pyIdxVal, hp, hdp]
  · rw [if_neg (by omega), if_pos (by omega : -(20:ℤ) ≤ t ∧ t < 0), py_bind_ok,
      if_neg (by omega), if_pos (by omega : -(4:ℤ) ≤ d ∧ d < 0), py_bind_ok]
    simp [pyIdxVal, hp, hdp]

theorem render_tier_oob (p : Playlist) (t d m : ℤ)
    (ht : p.tier = .vnum (t : ℚ)) (hd : p.division = .vnum (d : ℚ))
    (hm : p.tier_max = .vnum (m : ℚ))
    (hoob : t < -20 ∨ 19 < t) :
    p.render = .ok "Unknown" := by
  unfold Playlist.render
  rw [ht, hd, hm, render_cond, pyIndex_int,
    show ((RANKS.length : ℤ) = 20) from rfl]
  by_cases hc : t = 0 ∨ t = m
  · have hdec : decide (t = 0 ∨ t = m) = true := by
      simp only [decide_eq_true_eq]; exact hc
    rw [if_pos hdec, if_neg (by omega), if_neg (by omega)]
  · have hdec : ¬(decide (t = 0 ∨ t = m) = true) := by
      simp only [decide_eq_true_eq]; exact hc
    rw [if_neg hdec, if_neg (by omega), if_neg (by omega), py_bind_err]

theorem render_div_oob (p : Playlist) (t d m : ℤ)
    (ht : p.tier = .vnum (t : ℚ)) (hd : p.division = .vnum (d : ℚ))
    (hm : p.tier_max = .vnum (m : ℚ))
    (hc : ¬(t = 0 ∨ t = m)) (hlo : -20 ≤ t) (hhi : t ≤ 19)
    (hoob : d < -4 ∨ 3 < d) :
    p.render = .ok "Unknown" := by
  have hdec : ¬(decide (t = 0 ∨ t = m) = true) := by
    simp only [decide_eq_true_eq]; exact hc
  unfold Playlist.render
  rw [ht, hd, hm, render_cond, if_neg hdec, pyIndex_int, pyIndex_int,
    show ((RANKS.length : ℤ) = 20) from rfl,
    show ((DIVISIONS.length : ℤ) = 4) from rfl]
  by_cases hp : 0 ≤ t
  · rw [if_pos (by omega : (0:ℤ) ≤ t ∧ t < 20), py_bind_ok,
      if_neg (by omega), if_neg (by omega), py_bind_err]
  · rw [if_neg (by omega), if_pos (by omega : -(20:ℤ) ≤ t ∧ t < 0), py_bind_ok,
      if_neg (by omega), if_neg (by omega), py_bind_err]

/-- C3: with tier and division indexing validly into the rank and division
tables, the display string is the bare rank name when tier is 0 or equals
tier_max, and otherwise the rank name, " Div " and the Roman-numeral label;
tier 0 gives "Unranked", tier 16 division 2 gives "Champion I Div III",
tier 19 with tier_max 19 gives "Grand Champion". -/
theorem C3_rank_display :
    (∀ (p : Playlist) (t d m : ℕ),
      p.tier = .vnum (t : ℚ) → p.division = .vnum (d : ℚ) →
      p.tier_max = .vnum (m : ℚ) → t ≤ 19 → d ≤ 3 →
      ((t = 0 ∨ t = m) → p.render = .ok (RANKS.getD t "")) ∧
      (¬(t = 0 ∨ t = m) →
        p.render = .ok (RANKS.getD t "" ++ " Div " ++ DIVISIONS.getD d ""))) ∧
    Playlist.render (mkPl 0 0 19) = .ok "Unranked" ∧
    Playlist.render (mkPl 16 2 19) = .ok "Champion I Div III" ∧
    Playlist.render (mkPl 19 0 19) = .ok "Grand Champion" := by
  refine ⟨?_, rfl, rfl, rfl⟩
  intro p t d m ht hd hm htle hdle
  have ht' : p.tier = .vnum ((t : ℤ) : ℚ) := by rw [ht]; norm_num
  have hd' : p.division = .vnum ((d : ℤ) : ℚ) := by rw [hd]; norm_num
  have hm' : p.tier_max = .vnum ((m : ℤ) : ℚ) := by rw [hm]; norm_num
  have hidxt : pyIdxVal 20 (t : ℤ) = t := by simp [pyIdxVal]
  have hidxd : pyIdxVal 4 (d : ℤ) = d := by simp [pyIdxVal]
  constructor
  · intro hc
    have h := render_bare p t m ht' hm' (by omega) (by omega) (by omega)
    rwa [hidxt] at h
  · intro hc
    have h := render_div p t d m ht' hd' hm' (by omega) (by omega) (by omega)
      (by omega) (by omega)
    rwa [hidxt, hidxd] at h

theorem C3_rank_display_witness :
    Playlist.render (mkPl 16 2 19) =
      .ok (RANKS.getD 16 "" ++ " Div " ++ DIVISIONS.getD 2 "") :=
  (C3_rank_display.1 (mkPl 16 2 19) 16 2 19 (by norm_num [mkPl])
    (by norm_num [mkPl]) (by norm_num [mkPl]) (by omega) (by omega)).2 (by omega)

/-- C4 counterexample: tier -1 lies outside [0, 19], yet the display is
"Grand Champion Div I" (the Python negative indexing selects the last rank
name), not the claimed "Unknown". -/
theorem C4_negative_tier_counterexample :
    Playlist.render (mkPl (-1) 0 19) = .ok "Grand Champion Div I" ∧
    Playlist.render (mkPl (-1) 0 19) ≠ .ok "Unknown" := by
  have h1 : Playlist.render (mkPl (-1) 0 19) = .ok "Grand Champion Div I" := rfl
  refine ⟨h1, ?_⟩
  rw [h1]
  simp

/-- C4 amended: rendering never raises for integer tier and division; it
yields "Unknown" when the tier is outside the Python valid index range
[-20, 19], and likewise when the division suffix is required and the
division is outside [-4, 3]; integers in the negative in-range band index
from the end of the tables instead. -/
theorem C4_oob_render_amended :
    ∀ (p : Playlist) (t d m : ℤ),
      p.tier = .vnum (t : ℚ) → p.division = .vnum (d : ℚ) →
      p.tier_max = .vnum (m : ℚ) →
      (∃ s, p.render = .ok s) ∧
      ((t < -20 ∨ 19 < t) → p.render = .ok "Unknown") ∧
      (¬(t = 0 ∨ t = m) → -20 ≤ t → t ≤ 19 → (d < -4 ∨ 3 < d) →
        p.render = .ok "Unknown") := by
  intro p t d m ht hd hm
  refine ⟨?_, fun hoob => render_tier_oob p t d m ht hd hm hoob,
    fun hc hlo hhi hoob => render_div_oob p t d m ht hd hm hc hlo hhi hoob⟩
  by_cases hr : -20 ≤ t ∧ t ≤ 19
  · by_cases hc : t = 0 ∨ t = m
    · exact ⟨_, render_bare p t m ht hm hc hr.1 hr.2⟩
    · by_cases hdq : -4 ≤ d ∧ d ≤ 3
      · exact ⟨_, render_div p t d m ht hd hm hc hr.1 hr.2 hdq.1 hdq.2⟩
      · exact ⟨"Unknown", render_div_oob p t d m ht hd hm hc hr.1 hr.2 (by omega)⟩
  · exact ⟨"Unknown", render_tier_oob p t d m ht hd hm (by omega)⟩

theorem C4_oob_render_amended_witness :
    (∃ s, Playlist.render (mkPl 25 0 19) = .ok s) ∧
    (((25:ℤ) < -20 ∨ (19:ℤ) < 25) → Playlist.render (mkPl 25 0 19) = .ok "Unknown") ∧
    (¬((25:ℤ) = 0 ∨ (25:ℤ) = 19) → (-20:ℤ) ≤ 25 → (25:ℤ) ≤ 19 →
      ((0:ℤ) < -4 ∨ (3:ℤ) < 0) → Playlist.render (mkPl 25 0 19) = .ok "Unknown") :=
  C4_oob_render_amended (mkPl 25 0 19) 25 0 19 (by norm_num [mkPl])
    (by norm_num [mkPl]) (by norm_num [mkPl])
theorem pyMax2_num (a b : ℚ) : pyMax2 (.vnum a) (.vnum b) = .ok (.vnum (max a b)) := by
  have hstep : pyMax2 (.vnum a) (.vnum b) =
      .ok (if a < b then .vnum b else .vnum a) := rfl
  rcases le_or_lt b a with h | h
  · rw [hstep, if_neg (not_lt.mpr h), max_eq_left h]
  · rw [hstep, if_pos h, max_eq_right h.le]

theorem pyMax_fold (a : ℚ) (ts : List ℚ) :
    List.foldlM pyMax2 (.vnum a) (ts.map Value.vnum) = .ok (.vnum (ts.foldl max a)) := by
  induction ts generalizing a with
  | nil => rfl
  | cons b bs ih => simp [List.foldlM, pyMax2_num, py_bind_ok, ih]

/-- The maximum tier over a list of numeric tiers, 0 when there are none
(the mathematical reading of `max(tiers, default=0)`). -/
def tiersMax (ts : List ℚ) : ℚ :=
  match ts with
  | [] => 0
  | t :: rest => rest.foldl max t

theorem pyMax_map (ts : List ℚ) : pyMax (ts.map Value.vnum) = .ok (.vnum (tiersMax ts)) := by
  cases ts with
  | nil => rfl
  | cons t rest => simp [pyMax, tiersMax, pyMax_fold]

/-- C2: after construction, `highest_tier` is the numeric maximum of the
tiers of the playlists (0 when there are none); a record with no `player_skills`
yields empty playlists and `highest_tier` 0; and `season_rewards` is built
from exactly this `highest_tier` value. -/
theorem C2_highest_tier_max :
    ∀ (isKnown : Value → Bool) (tb : Option (List (Value × Value)))
      (pf : Platform) (data : RawData) (pl : Player),
      Player.make isKnown tb pf data = .ok pl →
      ((∀ ts : List ℚ,
          pl.playlists.map (fun e => e.2.tier) = ts.map Value.vnum →
          pl.highest_tier = .vnum (tiersMax ts)) ∧
       (data.lookup "player_skills" = none →
          pl.playlists = [] ∧ pl.highest_tier = .vnum 0) ∧
       (∃ srd, toRecord (dictGet data "season_rewards" (.vdict [])) = .ok srd ∧
          SeasonRewards.make pl.highest_tier srd = .ok pl.season_rewards)) := by
  intro isKnown tb pf data pl hmk
  simp only [Player.make, py_bind_ok_iff] at hmk
  obtain ⟨skills, hskills, pls, hpls, ht, hht, srd, hsrd, sr, hsr, heq⟩ := hmk
  rw [Except.ok.injEq] at heq
  subst heq
  refine ⟨?_, ?_, ⟨srd, hsrd, hsr⟩⟩
  · intro ts hts
    simp only at hts
    rw [hts, pyMax_map] at hht
    simpa using hht.symm
  · intro hnone
    rw [show dictGet data "player_skills" (.vlist []) = .vlist [] from by
      simp [dictGet, hnone]] at hskills
    rw [show toRecords (Value.vlist []) = Except.ok ([] : List RawData) from rfl,
      Except.ok.injEq] at hskills
    subst hskills
    rw [show preparePlaylists isKnown (tb.getD []) [] [] =
      Except.ok ([] : List (PKey × Playlist)) from rfl, Except.ok.injEq] at hpls
    subst hpls
    rw [show pyMax (List.map (fun e => e.2.tier) ([] : List (PKey × Playlist))) =
      Except.ok (Value.vnum 0) from rfl, Except.ok.injEq] at hht
    subst hht
    exact ⟨rfl, rfl⟩

theorem C2_highest_tier_max_witness :
    ((∀ ts : List ℚ,
        ([] : List (PKey × Playlist)).map (fun e => e.2.tier) = ts.map Value.vnum →
        (Value.vnum 0 : Value) = .vnum (tiersMax ts)) ∧
     (([] : RawData).lookup "player_skills" = none →
        ([] : List (PKey × Playlist)) = [] ∧ (Value.vnum 0 : Value) = .vnum 0) ∧
     (∃ srd, toRecord (dictGet [] "season_rewards" (.vdict [])) = .ok srd ∧
        SeasonRewards.make (.vnum 0) srd =
          .ok ⟨.vnum 0, .vnum 0, true⟩)) := by
  have h := C2_highest_tier_max (fun _ => false) none ⟨0⟩ []
    ⟨⟨0⟩, .vstr "", .vstr "", [], [], .vnum 0, ⟨.vnum 0, .vnum 0, true⟩⟩ rfl
  exact h
mutual

theorem Value.beq_refl : ∀ (v : Value), Value.beq v v = true
  | .vnull => rfl
  | .vnum q => by simp [Value.beq]
  | .vstr s => by simp [Value.beq]
  | .vlist xs => by rw [Value.beq]; exact Value.beqList_refl xs
  | .vdict xs => by rw [Value.beq]; exact Value.beqDict_refl xs

theorem Value.beqList_refl : ∀ (xs : List Value), Value.beqList xs xs = true
  | [] => rfl
  | a :: as => by rw [Value.beqList, Value.beq_refl a, Value.beqList_refl as]; rfl

theorem Value.beqDict_refl : ∀ (xs : List (String × Value)), Value.beqDict xs xs = true
  | [] => rfl
  | (k, v) :: as => by
      rw [Value.beqDict, Value.beq_refl v, Value.beqDict_refl as]; simp

end

theorem PKey.beq_self (k : PKey) : PKey.beq k k = true := by
  cases k <;> simp [PKey.beq, Value.beq_refl]

theorem lookupPl_insertPl_self (m : List (PKey × Playlist)) (k : PKey) (v : Playlist) :
    lookupPl (insertPl m k v) k = some v := by
  unfold insertPl
  by_cases hmem : m.any (fun e => PKey.beq e.1 k)
  · rw [if_pos hmem]
    revert hmem
    induction m with
    | nil => intro hmem; simp at hmem
    | cons e rest ih =>
      intro hmem
      by_cases hek : PKey.beq e.1 k
      · rw [List.map_cons, if_pos hek]
        simp [lookupPl, PKey.beq_self]
      · rw [List.map_cons, if_neg hek]
        rw [show lookupPl (e :: List.map (fun e => if PKey.beq e.1 k then (k, v) else e) rest) k =
          if PKey.beq e.1 k then some e.2 else
            lookupPl (List.map (fun e => if PKey.beq e.1 k then (k, v) else e) rest) k from rfl]
        rw [if_neg hek]
        apply ih
        simpa [List.any_cons, hek] using hmem
  · rw [if_neg hmem]
    revert hmem
    induction m with
    | nil => intro _; simp [lookupPl, PKey.beq_self]
    | cons e rest ih =>
      intro hmem
      rw [List.cons_append,
        show lookupPl (e :: (rest ++ [(k, v)])) k =
          if PKey.beq e.1 k then some e.2 else lookupPl (rest ++ [(k, v)]) k from rfl]
      rw [if_neg (by
        intro hek
        exact hmem (by simp [List.any_cons, hek]))]
      apply ih
      intro hrest
      exact hmem (by simp [List.any_cons, hrest])

theorem countP_map_replace (m : List (PKey × Playlist)) (k : PKey) (v : Playlist) :
    (m.map (fun e => if PKey.beq e.1 k then (k, v) else e)).countP
      (fun e => PKey.beq e.1 k) = m.countP (fun e => PKey.beq e.1 k) := by
  induction m with
  | nil => rfl
  | cons e rest ih =>
    by_cases hek : PKey.beq e.1 k
    · rw [List.map_cons, if_pos hek]
      rw [List.countP_cons_of_pos _ _ (by simpa using PKey.beq_self k),
        List.countP_cons_of_pos _ _ (by simpa using hek), ih]
    · rw [List.map_cons, if_neg hek]
      rw [List.countP_cons_of_neg _ _ (by simpa using hek),
        List.countP_cons_of_neg _ _ (by simpa using hek), ih]

theorem countP_insertPl (m : List (PKey × Playlist)) (k : PKey) (v : Playlist)
    (hle : m.countP (fun e => PKey.beq e.1 k) ≤ 1) :
    (insertPl m k v).countP (fun e => PKey.beq e.1 k) = 1 := by
  unfold insertPl
  by_cases hmem : m.any (fun e => PKey.beq e.1 k)
  · rw [if_pos hmem, countP_map_replace]
    have hpos : 0 < m.countP (fun e => PKey.beq e.1 k) := by
      rw [List.countP_pos_iff]
      rcases List.any_eq_true.mp hmem with ⟨e, he, hek⟩
      exact ⟨e, he, hek⟩
    omega
  · rw [if_neg hmem]
    have hzero : m.countP (fun e => PKey.beq e.1 k) = 0 := by
      rw [List.countP_eq_zero]
      intro e he hek
      exact hmem (List.any_eq_true.mpr ⟨e, he, hek⟩)
    rw [List.countP_append, hzero,
      List.countP_cons_of_pos _ _ (by simpa using PKey.beq_self k)]
    rfl

theorem Playlist.make_ok (bd : Option Value) (k : PKey) (data : RawData) (mu : ℚ)
    (hmu : dictGet data "mu" (.vnum 25) = .vnum mu) :
    ∃ pl, Playlist.make bd k data = .ok pl := by
  refine ⟨{ key := k, tier := dictGet data "tier" (.vnum 0),
            division := dictGet data "division" (.vnum 0),
            mu := dictGet data "mu" (.vnum 25),
            skill := dictGet data "skill" (.vnum (mu * 20 + 100)),
            sigma := dictGet data "sigma" (.vnum (8.333 : ℚ)),
            win_streak := dictGet data "win_streak" (.vnum 0),
            matches_played := dictGet data "matches_played" (.vnum 0),
            tier_max := dictGet data "tier_max" (.vnum 19),
            breakdown := bd.getD (.vdict []) }, ?_⟩
  simp only [Playlist.make, hmu, pyMulNat, pyAdd, py_bind_ok, Nat.cast_ofNat]

theorem add_playlist_spec (isKnown : Value → Bool) (p : Player) (record : RawData)
    (rawKey : Value) (p' : Player) (rec' : RawData)
    (hk : record.lookup "playlist" = some rawKey)
    (hadd : Player.add_playlist isKnown p record = .ok (p', rec')) :
    ∃ pl, Playlist.make (some (lookupBreakdown p.tier_breakdown rawKey))
        (resolveKey isKnown rawKey) (removeKey record "playlist") = .ok pl ∧
      p' = { p with playlists := insertPl p.playlists (resolveKey isKnown rawKey) pl } ∧
      rec' = removeKey record "playlist" := by
  simp only [Player.add_playlist, addPlaylistCore, popKey, hk, py_bind_ok,
    py_bind_ok_iff, Except.ok.injEq, Prod.mk.injEq] at hadd
  obtain ⟨pair, ⟨pl, hpl, hpair⟩, h3, h4⟩ := hadd
  subst hpair
  exact ⟨pl, hpl, by rw [← h3], by rw [← h4]⟩

/-- C7: a record whose playlist identifier is not a known enumeration
variant is retained as a raw key without raising; the constructed playlist
is stored under that raw key and `get_playlist` with the raw key returns
it. -/
theorem C7_raw_key_retained :
    ∀ (isKnown : Value → Bool) (p : Player) (record : RawData)
      (rawKey : Value) (p' : Player) (rec' : RawData),
      record.lookup "playlist" = some rawKey →
      isKnown rawKey = false →
      Player.add_playlist isKnown p record = .ok (p', rec') →
      ∃ pl, Playlist.make (some (lookupBreakdown p.tier_breakdown rawKey))
          (.raw rawKey) (removeKey record "playlist") = .ok pl ∧
        p'.playlists = insertPl p.playlists (.raw rawKey) pl ∧
        p'.get_playlist (.raw rawKey) = some pl := by
  intro isKnown p record rawKey p' rec' hk hunk hadd
  have hres : resolveKey isKnown rawKey = .raw rawKey := by
    simp [resolveKey, hunk]
  obtain ⟨pl, hpl, hp', _⟩ := add_playlist_spec isKnown p record rawKey p' rec' hk hadd
  rw [hres] at hpl hp'
  subst hp'
  exact ⟨pl, hpl, rfl, lookupPl_insertPl_self p.playlists (.raw rawKey) pl⟩

/-- A concrete empty player used in the witnesses. -/
def emptyPlayer : Player :=
  { platform := ⟨0⟩, user_name := .vstr "", player_id := .vstr "",
    playlists := [], tier_breakdown := [], highest_tier := .vnum 0,
    season_rewards := ⟨.vnum 0, .vnum 0, true⟩ }

/-- The playlist built from a bare record holding only the key 9999. -/
def rawPl9999 : Playlist :=
  { key := .raw (.vnum 9999), tier := .vnum 0, division := .vnum 0,
    mu := .vnum 25, skill := .vnum 600, sigma := .vnum (8.333 : ℚ),
    win_streak := .vnum 0, matches_played := .vnum 0, tier_max := .vnum 19,
    breakdown := .vdict [] }

theorem C7_raw_key_retained_witness :
    ∃ pl, Playlist.make (some (lookupBreakdown emptyPlayer.tier_breakdown (.vnum 9999)))
        (.raw (.vnum 9999)) (removeKey [("playlist", .vnum 9999)] "playlist") = .ok pl ∧
      Player.playlists { emptyPlayer with
          playlists := [(.raw (.vnum 9999), rawPl9999)] } =
        insertPl emptyPlayer.playlists (.raw (.vnum 9999)) pl ∧
      Player.get_playlist { emptyPlayer with
          playlists := [(.raw (.vnum 9999), rawPl9999)] } (.raw (.vnum 9999)) =
        some pl :=
  C7_raw_key_retained (fun _ => false) emptyPlayer [("playlist", .vnum 9999)]
    (.vnum 9999) { emptyPlayer with playlists := [(.raw (.vnum 9999), rawPl9999)] }
    [] rfl rfl (by
      simp [Player.add_playlist, addPlaylistCore, popKey, py_bind_ok,
        Playlist.make, pyMulNat, pyAdd, emptyPlayer, rawPl9999, dictGet,
        removeKey, resolveKey, lookupBreakdown, insertPl, List.lookup]
      norm_num)

/-- C8: `add_playlist` pops the `playlist` key out of the record of the caller,
inserts or overwrites exactly one playlists entry under the resolved key
(the new playlist wins), and leaves the platform, identity fields,
tier_breakdown, highest_tier and season_rewards untouched. -/
theorem C8_add_playlist_frame :
    ∀ (isKnown : Value → Bool) (p : Player) (record : RawData)
      (rawKey : Value) (p' : Player) (rec' : RawData),
      record.lookup "playlist" = some rawKey →
      Player.add_playlist isKnown p record = .ok (p', rec') →
      rec' = removeKey record "playlist" ∧
      p'.platform = p.platform ∧ p'.user_name = p.user_name ∧
      p'.player_id = p.player_id ∧ p'.tier_breakdown = p.tier_breakdown ∧
      p'.highest_tier = p.highest_tier ∧
      p'.season_rewards = p.season_rewards ∧
      ∃ pl, p'.playlists = insertPl p.playlists (resolveKey isKnown rawKey) pl ∧
        p'.get_playlist (resolveKey isKnown rawKey) = some pl ∧
        (p.playlists.countP (fun e => PKey.beq e.1 (resolveKey isKnown rawKey)) ≤ 1 →
          p'.playlists.countP
            (fun e => PKey.beq e.1 (resolveKey isKnown rawKey)) = 1) := by
  intro isKnown p record rawKey p' rec' hk hadd
  obtain ⟨pl, hpl, hp', hrec⟩ := add_playlist_spec isKnown p record rawKey p' rec' hk hadd
  subst hp'
  exact ⟨hrec, rfl, rfl, rfl, rfl, rfl, rfl, pl, rfl,
    lookupPl_insertPl_self p.playlists (resolveKey isKnown rawKey) pl,
    fun hle => countP_insertPl p.playlists (resolveKey isKnown rawKey) pl hle⟩

theorem C8_add_playlist_frame_witness :
    ([] : RawData) = removeKey [("playlist", .vnum 9999)] "playlist" ∧
    Player.platform { emptyPlayer with
        playlists := [(.raw (.vnum 9999), rawPl9999)] } = emptyPlayer.platform ∧
    Player.user_name { emptyPlayer with
        playlists := [(.raw (.vnum 9999), rawPl9999)] } = emptyPlayer.user_name ∧
    Player.player_id { emptyPlayer with
        playlists := [(.raw (.vnum 9999), rawPl9999)] } = emptyPlayer.player_id ∧
    Player.tier_breakdown { emptyPlayer with
        playlists := [(.raw (.vnum 9999), rawPl9999)] } = emptyPlayer.tier_breakdown ∧
    Player.highest_tier { emptyPlayer with
        playlists := [(.raw (.vnum 9999), rawPl9999)] } = emptyPlayer.highest_tier ∧
    Player.season_rewards { emptyPlayer with
        playlists := [(.raw (.vnum 9999), rawPl9999)] } = emptyPlayer.season_rewards ∧
    ∃ pl, Player.playlists { emptyPlayer with
        playlists := [(.raw (.vnum 9999), rawPl9999)] } =
          insertPl emptyPlayer.playlists
            (resolveKey (fun _ => false) (.vnum 9999)) pl ∧
      Player.get_playlist { emptyPlayer with
          playlists := [(.raw (.vnum 9999), rawPl9999)] }
          (resolveKey (fun _ => false) (.vnum 9999)) = some pl ∧
      (emptyPlayer.playlists.countP
          (fun e => PKey.beq e.1 (resolveKey (fun _ => false) (.vnum 9999))) ≤ 1 →
        (Player.playlists { emptyPlayer with
            playlists := [(.raw (.vnum 9999), rawPl9999)] }).countP
          (fun e => PKey.beq e.1 (resolveKey (fun _ => false) (.vnum 9999))) = 1) :=
  C8_add_playlist_frame (fun _ => false) emptyPlayer [("playlist", .vnum 9999)]
    (.vnum 9999) { emptyPlayer with playlists := [(.raw (.vnum 9999), rawPl9999)] }
    [] rfl (by
      simp [Player.add_playlist, addPlaylistCore, popKey, py_bind_ok,
        Playlist.make, pyMulNat, pyAdd, emptyPlayer, rawPl9999, dictGet,
        removeKey, resolveKey, lookupBreakdown, insertPl, List.lookup]
      norm_num)

/-- C9: a playlist record without a `playlist` field makes `add_playlist`
fail with a key-not-found error, and this is the only shape condition under
which it raises: with the field present (and a numeric resolved `mu`, per
the documented record shape) the call succeeds. -/
theorem C9_missing_playlist_field :
    ∀ (isKnown : Value → Bool) (p : Player) (record : RawData),
      (record.lookup "playlist" = none →
        Player.add_playlist isKnown p record = .error .keyError) ∧
      (∀ rawKey, record.lookup "playlist" = some rawKey →
        (∃ mu : ℚ, dictGet (removeKey record "playlist") "mu" (.vnum 25) = .vnum mu) →
        ∃ res, Player.add_playlist isKnown p record = .ok res) := by
  intro isKnown p record
  constructor
  · intro hnone
    simp [Player.add_playlist, addPlaylistCore, popKey, hnone, py_bind_err]
  · intro rawKey hk hshape
    obtain ⟨mu, hmu⟩ := hshape
    obtain ⟨pl, hpl⟩ := Playlist.make_ok
      (some (lookupBreakdown p.tier_breakdown rawKey))
      (resolveKey isKnown rawKey) (removeKey record "playlist") mu hmu
    have hres : Player.add_playlist isKnown p record = .ok
        ({ p with playlists := insertPl p.playlists (resolveKey isKnown rawKey) pl },
         removeKey record "playlist") := by
      simp [Player.add_playlist, addPlaylistCore, popKey, hk, py_bind_ok, hpl]
    exact ⟨_, hres⟩

theorem C9_missing_playlist_field_witness :
    (([] : RawData).lookup "playlist" = none →
      Player.add_playlist (fun _ => false) emptyPlayer [] = .error .keyError) ∧
    (Player.add_playlist (fun _ => false) emptyPlayer [] = .error .keyError) ∧
    ∃ res, Player.add_playlist (fun _ => false) emptyPlayer
      [("playlist", .vnum 5)] = .ok res :=
  ⟨(C9_missing_playlist_field (fun _ => false) emptyPlayer []).1,
   (C9_missing_playlist_field (fun _ => false) emptyPlayer []).1 rfl,
   (C9_missing_playlist_field (fun _ => false) emptyPlayer
     [("playlist", .vnum 5)]).2 (.vnum 5) rfl ⟨25, rfl⟩⟩

/-- C10: the `user_name` fallback for `player_id` applies only on key
absence: a record that stores an explicit null under `user_id` yields
`player_id` null (not `user_name`), and any stored value is taken as-is. -/
theorem C10_user_id_no_null_coalescing :
    ∀ (isKnown : Value → Bool) (tb : Option (List (Value × Value)))
      (pf : Platform) (data : RawData) (pl : Player),
      Player.make isKnown tb pf data = .ok pl →
      ((∀ v, data.lookup "user_id" = some v → pl.player_id = v) ∧
       (data.lookup "user_id" = none →
          pl.player_id = dictGet data "user_name" (.vstr "")) ∧
       (data.lookup "user_id" = some .vnull → pl.player_id = .vnull)) := by
  intro isKnown tb pf data pl hmk
  simp only [Player.make, py_bind_ok_iff] at hmk
  obtain ⟨skills, hskills, pls, hpls, ht, hht, srd, hsrd, sr, hsr, heq⟩ := hmk
  rw [Except.ok.injEq] at heq
  subst heq
  refine ⟨fun v hv => ?_, fun hn => ?_, fun hv => ?_⟩
  · simp [dictGet, hv]
  · simp [dictGet, hn]
  · simp [dictGet, hv]

theorem C10_user_id_no_null_coalescing_witness :
    ((∀ v, ([("user_name", Value.vstr "Alice"), ("user_id", Value.vnull)] :
        RawData).lookup "user_id" = some v →
      Player.player_id ⟨⟨0⟩, .vstr "Alice", .vnull, [], [], .vnum 0,
        ⟨.vnum 0, .vnum 0, true⟩⟩ = v) ∧
     (([("user_name", Value.vstr "Alice"), ("user_id", Value.vnull)] :
        RawData).lookup "user_id" = none →
      Player.player_id ⟨⟨0⟩, .vstr "Alice", .vnull, [], [], .vnum 0,
        ⟨.vnum 0, .vnum 0, true⟩⟩ =
        dictGet [("user_name", .vstr "Alice"), ("user_id", .vnull)]
          "user_name" (.vstr "")) ∧
     (([("user_name", Value.vstr "Alice"), ("user_id", Value.vnull)] :
        RawData).lookup "user_id" = some .vnull →
      Player.player_id ⟨⟨0⟩, .vstr "Alice", .vnull, [], [], .vnum 0,
        ⟨.vnum 0, .vnum 0, true⟩⟩ = .vnull)) :=
  C10_user_id_no_null_coalescing (fun _ => false) none ⟨0⟩
    [("user_name", .vstr "Alice"), ("user_id", .vnull)]
    ⟨⟨0⟩, .vstr "Alice", .vnull, [], [], .vnum 0, ⟨.vnum 0, .vnum 0, true⟩⟩ rfl
